import Mathlib

/-!
Verification of the binary wire protocol of the stock-exchange engine's
TCP endpoint, as implemented by the Python clients `test_auth.py`
(login request encoding, login response decoding) and `test_client.py`
(order submission encoding).

Bytes are modelled as natural numbers below 256; byte strings as
`List Nat`.  Multi-byte integers are laid out big-endian (`struct`
format prefix `!`).  The IEEE-754 double `price` is carried by the
codec as an opaque 8-byte big-endian bit pattern, modelled here by its
64-bit pattern `priceBits` — the codec performs no floating-point
arithmetic on it.
-/

namespace StockProto

/-- Big-endian 4-byte encoding of a natural number (mod 2^32),
as produced by `struct.pack` format `!I`. -/
def u32BE (n : Nat) : List Nat :=
  [n / 16777216 % 256, n / 65536 % 256, n / 256 % 256, n % 256]

/-- Big-endian 8-byte encoding of a natural number (mod 2^64),
as produced by `struct.pack` formats `!Q` and (for the bit pattern
of a double) `!d`. -/
def u64BE (n : Nat) : List Nat :=
  [n / 72057594037927936 % 256, n / 281474976710656 % 256,
   n / 1099511627776 % 256, n / 4294967296 % 256,
   n / 16777216 % 256, n / 65536 % 256, n / 256 % 256, n % 256]

/-- Big-endian value of a byte string, as read by `struct.unpack`. -/
def beVal (bs : List Nat) : Nat :=
  bs.foldl (fun acc b => acc * 256 + b) 0

/-- Read one byte of `data` at offset `off` (0 when out of range). -/
def readU8 (data : List Nat) (off : Nat) : Nat :=
  ((data.drop off).headD 0)

/-- Read a big-endian u32 of `data` at offset `off`. -/
def readU32BE (data : List Nat) (off : Nat) : Nat :=
  beVal ((data.drop off).take 4)

/-- Read a big-endian u64 of `data` at offset `off`. -/
def readU64BE (data : List Nat) (off : Nat) : Nat :=
  beVal ((data.drop off).take 8)

/-- Every entry of a byte string is an actual byte. -/
def ByteOk (bs : List Nat) : Prop := ∀ b ∈ bs, b < 256

instance (bs : List Nat) : Decidable (ByteOk bs) := by
  unfold ByteOk; infer_instance

/-- Message-type discriminants of `test_auth.py`'s `MessageType` enum. -/
def MessageType_LOGIN_REQUEST : Nat := 1

def MessageType_LOGIN_RESPONSE : Nat := 2

def MessageType_SUBMIT_ORDER_enum : Nat := 3

/-- Discriminant actually written by `test_client.py` for order
submission (`MESSAGE_TYPE_SUBMIT_ORDER = 1`). -/
def MESSAGE_TYPE_SUBMIT_ORDER : Nat := 1

/-- `LOGIN_REQUEST_HEADER_SIZE = struct.calcsize('!IBI')`. -/
def LOGIN_REQUEST_HEADER_SIZE : Nat := 9

/-- `LOGIN_RESPONSE_HEADER_SIZE = struct.calcsize('!IBBI')`. -/
def LOGIN_RESPONSE_HEADER_SIZE : Nat := 10

/-- UTF-8 bytes of the ASCII string "abc", as `'abc'.encode('utf-8')`. -/
def abcToken : List Nat := ['a'.toNat, 'b'.toNat, 'c'.toNat]

/-- `send_login_request` (test_auth.py): packs `!IBI`
(`message_size`, `MessageType.LOGIN_REQUEST`, token length) and
appends the token bytes.  `message_size` is the header size (9)
plus the token byte length. -/
def encodeLoginRequest (token : List Nat) : List Nat :=
  u32BE (LOGIN_REQUEST_HEADER_SIZE + token.length) ++
    ([MessageType_LOGIN_REQUEST] ++ (u32BE token.length ++ token))

/-- An order-submission message, the fields packed by `execute_trade`
(test_client.py).  `priceBits` is the 64-bit IEEE-754 pattern of the
`price` double. -/
structure SubmitOrder where
  order_id : List Nat
  user_id : List Nat
  symbol : List Nat
  side : Nat
  order_type : Nat
  quantity : Nat
  priceBits : Nat
  timestamp_ms : Nat
  deriving Repr, DecidableEq

/-- Field ranges under which every `struct.pack` call of
`execute_trade` succeeds. -/
def SubmitOrder.Valid (o : SubmitOrder) : Prop :=
  ByteOk o.order_id ∧ ByteOk o.user_id ∧ ByteOk o.symbol ∧
  o.side < 256 ∧ o.order_type < 256 ∧
  o.quantity < 2 ^ 64 ∧ o.priceBits < 2 ^ 64 ∧ o.timestamp_ms < 2 ^ 64 ∧
  o.order_id.length < 2 ^ 32 ∧ o.user_id.length < 2 ^ 32 ∧
  o.symbol.length < 2 ^ 32 ∧
  43 + o.order_id.length + o.user_id.length + o.symbol.length < 2 ^ 32

instance (o : SubmitOrder) : Decidable o.Valid := by
  unfold SubmitOrder.Valid; infer_instance

/-- `message_body` of `execute_trade`: `struct.pack('!BIIIBBQdQ', ...)`
followed by the three variable-length byte strings. -/
def submitOrderBody (o : SubmitOrder) : List Nat :=
  [MESSAGE_TYPE_SUBMIT_ORDER] ++
    (u32BE o.order_id.length ++
     (u32BE o.user_id.length ++
      (u32BE o.symbol.length ++
       ([o.side] ++
        ([o.order_type] ++
         (u64BE o.quantity ++
          (u64BE o.priceBits ++
           (u64BE o.timestamp_ms ++
            (o.order_id ++ (o.user_id ++ o.symbol))))))))))

/-- `execute_trade`'s full message: `struct.pack('!I', 4 + len(body))`
prepended to the body. -/
def encodeSubmitOrder (o : SubmitOrder) : List Nat :=
  u32BE (4 + (submitOrderBody o).length) ++ submitOrderBody o

/-- `receive_login_response` (test_auth.py): reads the 10-byte `!IBBI`
header, ignores `message_length` and `type`, converts the `success`
byte with `bool(...)`, then reads `message_len` further bytes as the
message body.  `none` models the failure paths (short header read, or
a declared non-empty body of which no byte arrives). -/
def decodeLoginResponse (data : List Nat) : Option (Bool × List Nat) :=
  match data with
  | _ :: _ :: _ :: _ :: _ :: s :: m0 :: m1 :: m2 :: m3 :: rest =>
    if beVal [m0, m1, m2, m3] = 0 then some (decide (s ≠ 0), [])
    else if rest.take (beVal [m0, m1, m2, m3]) = [] then none
    else some (decide (s ≠ 0), rest.take (beVal [m0, m1, m2, m3]))
  | _ => none

/-- Consume exactly `n` bytes of a buffer, as the spec's Byte Cursor
`take(n)`: the first `n` bytes and the remainder, or `none`
(`InsufficientData`) when fewer than `n` bytes are buffered. -/
def readBytes (n : Nat) (l : List Nat) : Option (List Nat × List Nat) :=
  if n ≤ l.length then some (l.take n, l.drop n) else none

/-- Modelled from the spec: the engine-side LoginRequest decoder is not
in the repository (only the Python encoder is), so it is modelled from
§4.3's decoding algorithm over the §6 schema
`total_len:u32, type:u8, token_len:u32` + `token`: read the fixed
fields, read `token_len` token bytes, check the discriminant and that
the bytes consumed equal the declared `total_len` and the whole frame. -/
def decodeLoginRequest (data : List Nat) : Option (List Nat) := do
  let (tlB, r1) ← readBytes 4 data
  let (tyB, r2) ← readBytes 1 r1
  let (lnB, r3) ← readBytes 4 r2
  let (token, r4) ← readBytes (beVal lnB) r3
  if tyB = [MessageType_LOGIN_REQUEST] ∧ r4 = [] ∧ beVal tlB = data.length
  then some token else none

/-- Modelled from the spec: the engine-side SubmitOrder decoder is not
in the repository; this follows §4.3's decoding algorithm with the
field widths the encoder `execute_trade` actually writes
(`!BIIIBBQdQ`, so `quantity` is an 8-byte u64), reading the three
variable fields by their declared lengths and checking that the bytes
consumed equal the declared `total_len` and the whole frame. -/
def decodeSubmitOrder (data : List Nat) : Option SubmitOrder := do
  let (tlB, r1) ← readBytes 4 data
  let (tyB, r2) ← readBytes 1 r1
  let (oLB, r3) ← readBytes 4 r2
  let (uLB, r4) ← readBytes 4 r3
  let (sLB, r5) ← readBytes 4 r4
  let (sdB, r6) ← readBytes 1 r5
  let (otB, r7) ← readBytes 1 r6
  let (qB, r8) ← readBytes 8 r7
  let (pB, r9) ← readBytes 8 r8
  let (tsB, r10) ← readBytes 8 r9
  let (oid, r11) ← readBytes (beVal oLB) r10
  let (uid, r12) ← readBytes (beVal uLB) r11
  let (sym, r13) ← readBytes (beVal sLB) r12
  if tyB = [MESSAGE_TYPE_SUBMIT_ORDER] ∧ r13 = [] ∧ beVal tlB = data.length
  then some ⟨oid, uid, sym, beVal sdB, beVal otB,
             beVal qB, beVal pB, beVal tsB⟩
  else none

/-- Modelled from the spec: the same §4.3 decoding algorithm but with
`quantity` read at the 4-byte u32 width declared by the spec's §6
schema table for SubmitOrder. -/
def decodeSubmitOrderSpecWidth (data : List Nat) : Option SubmitOrder := do
  let (tlB, r1) ← readBytes 4 data
  let (tyB, r2) ← readBytes 1 r1
  let (oLB, r3) ← readBytes 4 r2
  let (uLB, r4) ← readBytes 4 r3
  let (sLB, r5) ← readBytes 4 r4
  let (sdB, r6) ← readBytes 1 r5
  let (otB, r7) ← readBytes 1 r6
  let (qB, r8) ← readBytes 4 r7
  let (pB, r9) ← readBytes 8 r8
  let (tsB, r10) ← readBytes 8 r9
  let (oid, r11) ← readBytes (beVal oLB) r10
  let (uid, r12) ← readBytes (beVal uLB) r11
  let (sym, r13) ← readBytes (beVal sLB) r12
  if tyB = [MESSAGE_TYPE_SUBMIT_ORDER] ∧ r13 = [] ∧ beVal tlB = data.length
  then some ⟨oid, uid, sym, beVal sdB, beVal otB,
             beVal qB, beVal pB, beVal tsB⟩
  else none

/-- Modelled from the spec: the session life-cycle states of §4.4
(the state machine itself is absent from the repository). -/
inductive SessionState where
  | unauthenticated
  | authenticating
  | authenticated
  | closed
  deriving Repr, DecidableEq

/-- Modelled from the spec: the error kinds of the §7 taxonomy needed
by the send path (the core raising them is absent from the repository). -/
inductive ProtoError where
  | sessionNotAuthenticated
  | sessionClosed
  deriving Repr, DecidableEq

/-- Modelled from the spec: the per-connection session record of §3
(timestamps in milliseconds); absent from the repository. -/
structure Session where
  state : SessionState
  token : Option (List Nat)
  last_heartbeat_sent : Option Nat
  last_heartbeat_ack : Option Nat
  deriving Repr, DecidableEq

/-- Modelled from the spec: a session as created on connection
establishment (§3): `Unauthenticated` with nothing recorded yet. -/
def Session.fresh : Session :=
  ⟨.unauthenticated, none, none, none⟩

/-- Modelled from the spec: the Session State Machine's send path for
`SubmitOrder` is not in the repository; per §4.4's legality gate,
attempting `SubmitOrder` while not `Authenticated` fails with
`SessionNotAuthenticated` and must not be transmitted; in
`Authenticated` the encoded frame is produced and the state is
unchanged. -/
def sendSubmitOrder (sess : Session) (o : SubmitOrder) :
    Except ProtoError (List Nat × Session) :=
  match sess.state with
  | .authenticated => .ok (encodeSubmitOrder o, sess)
  | _ => .error .sessionNotAuthenticated

/-- The bytes a send attempt actually hands to the transport:
none on a failed attempt. -/
def wireOutput (r : Except ProtoError (List Nat × Session)) : List Nat :=
  match r with
  | .ok (bs, _) => bs
  | .error _ => []

/-- The spec's §8 scenario order: `order_id="O1"`, `user_id="U1"`,
`symbol="AAPL"`, side 0 (buy), order type 1 (limit), quantity 100,
price 150.0 (IEEE-754 pattern 0x4062C00000000000), timestamp
1700000000000.  The byte strings are the UTF-8 encodings of the
ASCII strings. -/
def sampleOrder : SubmitOrder :=
  { order_id := ['O'.toNat, '1'.toNat]
    user_id := ['U'.toNat, '1'.toNat]
    symbol := ['A'.toNat, 'A'.toNat, 'P'.toNat, 'L'.toNat]
    side := 0
    order_type := 1
    quantity := 100
    priceBits := 0x4062C00000000000
    timestamp_ms := 1700000000000 }

/-! ## Helper lemmas -/

theorem u32BE_length (n : Nat) : (u32BE n).length = 4 := rfl

theorem u64BE_length (n : Nat) : (u64BE n).length = 8 := rfl

theorem beVal_u32BE (n : Nat) (h : n < 2 ^ 32) : beVal (u32BE n) = n := by
  simp only [beVal, u32BE, List.foldl]
  omega

theorem beVal_u64BE (n : Nat) (h : n < 2 ^ 64) : beVal (u64BE n) = n := by
  simp only [beVal, u64BE, List.foldl]
  omega

theorem beVal_singleton (b : Nat) : beVal [b] = b := by
  simp [beVal]

theorem readBytes_append (n : Nat) (xs ys : List Nat)
    (h : xs.length = n) : readBytes n (xs ++ ys) = some (xs, ys) := by
  subst h
  simp [readBytes, List.take_left, List.drop_left]

theorem readBytes_exact (xs : List Nat) : readBytes xs.length xs = some (xs, []) := by
  simp [readBytes]

theorem submitOrderBody_length (o : SubmitOrder) :
    (submitOrderBody o).length =
      39 + o.order_id.length + o.user_id.length + o.symbol.length := by
  simp [submitOrderBody, u32BE, u64BE]
  omega

/-- Round-trip of the login codec: decoding an encoded login request
recovers the token, for every token that `struct.pack` accepts. -/
theorem decodeLoginRequest_encode (token : List Nat)
    (h1 : LOGIN_REQUEST_HEADER_SIZE + token.length < 2 ^ 32)
    (h2 : token.length < 2 ^ 32) :
    decodeLoginRequest (encodeLoginRequest token) = some token := by
  have h9 : (9 : Nat) + token.length < 2 ^ 32 := h1
  have e : encodeLoginRequest token
      = u32BE (LOGIN_REQUEST_HEADER_SIZE + token.length) ++
        ([MessageType_LOGIN_REQUEST] ++ (u32BE token.length ++ token)) := rfl
  unfold decodeLoginRequest
  rw [e]
  simp only [readBytes_append, readBytes_exact, u32BE_length, List.length_singleton,
    Option.bind_eq_bind, Option.some_bind, beVal_u32BE, h2, List.length_append,
    List.length_cons, List.length_nil, LOGIN_REQUEST_HEADER_SIZE]
  rw [beVal_u32BE _ h9]
  split
  · rfl
  · next hcond => exact absurd ⟨trivial, trivial, by omega⟩ hcond

/-- Round-trip of the order codec: decoding an encoded order (at the
widths the encoder actually writes) recovers every field, for every
valid order. -/
theorem decodeSubmitOrder_encode (o : SubmitOrder) (hv : o.Valid) :
    decodeSubmitOrder (encodeSubmitOrder o) = some o := by
  obtain ⟨_, _, _, _, _, hq, hp, hts, h4, h5, h6, htot⟩ := hv
  have hbl := submitOrderBody_length o
  have htot' : 4 + (submitOrderBody o).length < 2 ^ 32 := by omega
  have e : encodeSubmitOrder o
      = u32BE (4 + (submitOrderBody o).length) ++
        ([MESSAGE_TYPE_SUBMIT_ORDER] ++
         (u32BE o.order_id.length ++
          (u32BE o.user_id.length ++
           (u32BE o.symbol.length ++
            ([o.side] ++
             ([o.order_type] ++
              (u64BE o.quantity ++
               (u64BE o.priceBits ++
                (u64BE o.timestamp_ms ++
                 (o.order_id ++ (o.user_id ++ o.symbol))))))))))) := rfl
  unfold decodeSubmitOrder
  rw [e]
  rw [readBytes_append 4 _ _ (u32BE_length _)]
  dsimp only [Option.bind_eq_bind, Option.some_bind]
  rw [readBytes_append 1 _ _ (List.length_singleton _)]
  dsimp only [Option.some_bind]
  rw [readBytes_append 4 _ _ (u32BE_length _)]
  dsimp only [Option.some_bind]
  rw [readBytes_append 4 _ _ (u32BE_length _)]
  dsimp only [Option.some_bind]
  rw [readBytes_append 4 _ _ (u32BE_length _)]
  dsimp only [Option.some_bind]
  rw [readBytes_append 1 _ _ (List.length_singleton _)]
  dsimp only [Option.some_bind]
  rw [readBytes_append 1 _ _ (List.length_singleton _)]
  dsimp only [Option.some_bind]
  rw [readBytes_append 8 _ _ (u64BE_length _)]
  dsimp only [Option.some_bind]
  rw [readBytes_append 8 _ _ (u64BE_length _)]
  dsimp only [Option.some_bind]
  rw [readBytes_append 8 _ _ (u64BE_length _)]
  dsimp only [Option.some_bind]
  rw [beVal_u32BE _ h4]
  rw [readBytes_append _ _ _ rfl]
  dsimp only [Option.some_bind]
  rw [beVal_u32BE _ h5]
  rw [readBytes_append _ _ _ rfl]
  dsimp only [Option.some_bind]
  rw [beVal_u32BE _ h6]
  rw [readBytes_exact]
  dsimp only [Option.some_bind]
  rw [beVal_u32BE _ htot']
  simp only [beVal_singleton, beVal_u64BE _ hq, beVal_u64BE _ hp, beVal_u64BE _ hts]
  split
  · rfl
  · next hcond =>
    refine absurd ⟨trivial, trivial, ?_⟩ hcond
    simp only [List.length_append, List.length_cons, List.length_nil, u32BE_length,
      u64BE_length, List.length_singleton]
    omega

/-! ## The claims -/

/-- Claim C1, counterexample: the encoder does NOT write `quantity` as
a 4-byte u32 after `order_type`.  For the spec's own scenario order
(quantity 100) the four bytes at offsets 19..22 are `[0,0,0,0]`, not
the u32 big-endian encoding of 100. -/
theorem quantity_u32_claim_refuted :
    ((encodeSubmitOrder sampleOrder).drop 19).take 4
      ≠ u32BE sampleOrder.quantity := by
  decide

/-- Claim C1 (amended): for every SubmitOrder message, the encoder
writes the `quantity` field as an 8-byte unsigned big-endian integer
(u64, `struct` format `Q`), placed after `order_type` (the byte at
offset 18) and before `price` (the 8 bytes at offsets 27..34), in the
fixed-field order `total_len, type, order_id_len, user_id_len,
symbol_len, side, order_type, quantity, price, timestamp_ms`. -/
theorem quantity_encoded_u64_bigEndian (o : SubmitOrder)
    (h : o.quantity < 2 ^ 64) :
    readU8 (encodeSubmitOrder o) 18 = o.order_type ∧
    ((encodeSubmitOrder o).drop 19).take 8 = u64BE o.quantity ∧
    readU64BE (encodeSubmitOrder o) 19 = o.quantity ∧
    ((encodeSubmitOrder o).drop 27).take 8 = u64BE o.priceBits := by
  refine ⟨rfl, rfl, ?_, rfl⟩
  exact (show readU64BE (encodeSubmitOrder o) 19 = beVal (u64BE o.quantity)
    from rfl).trans (beVal_u64BE _ h)

/-- Witness for C1's amended theorem at the spec's scenario order. -/
theorem quantity_encoded_u64_bigEndian_witness :
    sampleOrder.quantity < 2 ^ 64 ∧
    (readU8 (encodeSubmitOrder sampleOrder) 18 = sampleOrder.order_type ∧
     ((encodeSubmitOrder sampleOrder).drop 19).take 8 = u64BE sampleOrder.quantity ∧
     readU64BE (encodeSubmitOrder sampleOrder) 19 = sampleOrder.quantity ∧
     ((encodeSubmitOrder sampleOrder).drop 27).take 8 = u64BE sampleOrder.priceBits) :=
  ⟨by decide, quantity_encoded_u64_bigEndian sampleOrder (by decide)⟩

/-- Claim C2: for every session not in the `Authenticated` state (in
particular a fresh connection that has sent no LoginRequest), an
attempt to encode/send SubmitOrder fails with
`SessionNotAuthenticated` and writes no bytes to the transport. -/
theorem submitOrder_gated_when_not_authenticated
    (s : Session) (o : SubmitOrder)
    (h : s.state ≠ SessionState.authenticated) :
    sendSubmitOrder s o = .error .sessionNotAuthenticated ∧
    wireOutput (sendSubmitOrder s o) = [] := by
  unfold sendSubmitOrder
  cases hs : s.state with
  | authenticated => exact absurd hs h
  | unauthenticated => exact ⟨rfl, rfl⟩
  | authenticating => exact ⟨rfl, rfl⟩
  | closed => exact ⟨rfl, rfl⟩

/-- Witness for C2 at a fresh (never logged in) session. -/
theorem submitOrder_gated_when_not_authenticated_witness :
    Session.fresh.state ≠ SessionState.authenticated ∧
    (sendSubmitOrder Session.fresh sampleOrder
        = .error .sessionNotAuthenticated ∧
     wireOutput (sendSubmitOrder Session.fresh sampleOrder) = []) :=
  ⟨by decide,
   submitOrder_gated_when_not_authenticated Session.fresh sampleOrder (by decide)⟩

/-- Claim C3: every encoded SubmitOrder frame carries discriminant
byte 1 at offset 4 — the same discriminant value used by LoginRequest
(`MessageType.LOGIN_REQUEST = 1`), for every order and every token. -/
theorem submitOrder_login_share_discriminant
    (token : List Nat) (o : SubmitOrder) :
    readU8 (encodeLoginRequest token) 4 = MessageType_LOGIN_REQUEST ∧
    readU8 (encodeSubmitOrder o) 4 = MESSAGE_TYPE_SUBMIT_ORDER ∧
    MESSAGE_TYPE_SUBMIT_ORDER = MessageType_LOGIN_REQUEST :=
  ⟨rfl, rfl, rfl⟩

/-- Claim C4: encoding LoginRequest with token "abc" (UTF-8 bytes
97, 98, 99) produces exactly the 12-byte sequence
`[0,0,0,12] [1] [0,0,0,3] [97,98,99]`, and decoding that exact byte
sequence reproduces the token "abc". -/
theorem loginRequest_abc_exact_frame :
    encodeLoginRequest abcToken
      = [0, 0, 0, 12, 1, 0, 0, 0, 3, 97, 98, 99] ∧
    decodeLoginRequest [0, 0, 0, 12, 1, 0, 0, 0, 3, 97, 98, 99]
      = some abcToken := by
  decide

/-- Claim C5: for every message either encoder produces, the leading
4-byte big-endian `total_len` field equals the total byte length of
the whole encoded frame, prefix included. -/
theorem totalLen_counts_whole_frame (token : List Nat) (o : SubmitOrder)
    (h1 : LOGIN_REQUEST_HEADER_SIZE + token.length < 2 ^ 32)
    (h2 : 4 + (submitOrderBody o).length < 2 ^ 32) :
    readU32BE (encodeLoginRequest token) 0 = (encodeLoginRequest token).length ∧
    readU32BE (encodeSubmitOrder o) 0 = (encodeSubmitOrder o).length := by
  constructor
  · have e : readU32BE (encodeLoginRequest token) 0
        = beVal (u32BE (LOGIN_REQUEST_HEADER_SIZE + token.length)) := rfl
    rw [e, beVal_u32BE _ h1]
    simp [encodeLoginRequest, u32BE, LOGIN_REQUEST_HEADER_SIZE]
    omega
  · have e : readU32BE (encodeSubmitOrder o) 0
        = beVal (u32BE (4 + (submitOrderBody o).length)) := rfl
    rw [e, beVal_u32BE _ h2]
    simp [encodeSubmitOrder, u32BE]
    omega

/-- Witness for C5 at the "abc" token and the spec's scenario order. -/
theorem totalLen_counts_whole_frame_witness :
    (LOGIN_REQUEST_HEADER_SIZE + abcToken.length < 2 ^ 32 ∧
     4 + (submitOrderBody sampleOrder).length < 2 ^ 32) ∧
    (readU32BE (encodeLoginRequest abcToken) 0
        = (encodeLoginRequest abcToken).length ∧
     readU32BE (encodeSubmitOrder sampleOrder) 0
        = (encodeSubmitOrder sampleOrder).length) :=
  ⟨⟨by decide, by decide⟩,
   totalLen_counts_whole_frame abcToken sampleOrder (by decide) (by decide)⟩

/-- Claim C6, counterexample: a received LoginResponse frame whose
declared `total_length` (999) is inconsistent with the 10 bytes its
fields actually occupy is decoded successfully — silently accepted,
with no `TruncatedMessage`/`TrailingBytes` failure. -/
theorem loginResponse_inconsistent_length_accepted :
    decodeLoginResponse [0, 0, 3, 231, 2, 1, 0, 0, 0, 0] = some (true, []) ∧
    beVal [0, 0, 3, 231] ≠ ([0, 0, 3, 231, 2, 1, 0, 0, 0, 0] : List Nat).length := by
  decide

/-- Claim C6 (amended): the LoginResponse decoder never examines the
declared `total_length`: for EVERY value of the 4-byte total-length
field — consistent with the actual frame size or not — the frame is
decoded identically (here: accepted, reporting the success flag),
never rejected with `TruncatedMessage`/`TrailingBytes`. -/
theorem loginResponse_totalLength_never_checked
    (total ty s : Nat) (rest : List Nat) :
    decodeLoginResponse (u32BE total ++ (ty :: s :: (u32BE 0 ++ rest)))
      = some (decide (s ≠ 0), []) := rfl

/-- Claim C7, counterexample: at the spec's declared u32 width for
`quantity`, decoding an encoded SubmitOrder does NOT reproduce the
original message — the spec's scenario order fails to round-trip
through the spec-table schema, because the encoder writes 8 quantity
bytes. -/
theorem roundtrip_at_spec_width_fails :
    decodeSubmitOrderSpecWidth (encodeSubmitOrder sampleOrder)
      ≠ some sampleOrder := by
  decide

/-- Claim C7 (amended): for every message variant with the widths the
encoders actually write (`quantity` as u64), decoding an encoded
message yields the original message: every token round-trips through
the login codec and every valid order — in particular one with
quantity 100 and the exact bit pattern of price 150.0 — round-trips
through the order codec. -/
theorem decode_encode_roundtrip (token : List Nat) (o : SubmitOrder)
    (h1 : LOGIN_REQUEST_HEADER_SIZE + token.length < 2 ^ 32)
    (h2 : token.length < 2 ^ 32)
    (hv : o.Valid) :
    decodeLoginRequest (encodeLoginRequest token) = some token ∧
    decodeSubmitOrder (encodeSubmitOrder o) = some o :=
  ⟨decodeLoginRequest_encode token h1 h2, decodeSubmitOrder_encode o hv⟩

/-- Witness for C7's amended theorem: the empty token (empty
variable-length string) and the spec's scenario order with
quantity 100 and price 150.0. -/
theorem decode_encode_roundtrip_witness :
    (LOGIN_REQUEST_HEADER_SIZE + ([] : List Nat).length < 2 ^ 32 ∧
     ([] : List Nat).length < 2 ^ 32 ∧ sampleOrder.Valid) ∧
    (decodeLoginRequest (encodeLoginRequest []) = some [] ∧
     decodeSubmitOrder (encodeSubmitOrder sampleOrder) = some sampleOrder) :=
  ⟨⟨by decide, by decide, by decide⟩,
   decode_encode_roundtrip [] sampleOrder (by decide) (by decide) (by decide)⟩

/-- Claim C8: every multi-byte numeric field of the encoded and decoded
messages is laid out big-endian: reading the frame back big-endian at
each field's offset recovers the field (`total_len` at 0, `token_len`
at 5 and the token after the 9-byte header for LoginRequest;
`total_len`, the three length fields, `quantity`, `price` and
`timestamp_ms` at their offsets for SubmitOrder), and the LoginResponse
decoder reads its `message_len` field big-endian (a body of the length
declared big-endian is returned in full). -/
theorem multibyte_fields_bigEndian (token : List Nat) (o : SubmitOrder)
    (tl ty s : Nat) (body : List Nat)
    (hL : LOGIN_REQUEST_HEADER_SIZE + token.length < 2 ^ 32)
    (hTk : token.length < 2 ^ 32)
    (hT : 4 + (submitOrderBody o).length < 2 ^ 32)
    (h4 : o.order_id.length < 2 ^ 32) (h5 : o.user_id.length < 2 ^ 32)
    (h6 : o.symbol.length < 2 ^ 32)
    (hq : o.quantity < 2 ^ 64) (hp : o.priceBits < 2 ^ 64)
    (hts : o.timestamp_ms < 2 ^ 64)
    (hb : body ≠ []) (hbl : body.length < 2 ^ 32) :
    readU32BE (encodeLoginRequest token) 0
      = LOGIN_REQUEST_HEADER_SIZE + token.length ∧
    readU32BE (encodeLoginRequest token) 5 = token.length ∧
    (encodeLoginRequest token).drop 9 = token ∧
    readU32BE (encodeSubmitOrder o) 0 = 4 + (submitOrderBody o).length ∧
    readU32BE (encodeSubmitOrder o) 5 = o.order_id.length ∧
    readU32BE (encodeSubmitOrder o) 9 = o.user_id.length ∧
    readU32BE (encodeSubmitOrder o) 13 = o.symbol.length ∧
    readU64BE (encodeSubmitOrder o) 19 = o.quantity ∧
    readU64BE (encodeSubmitOrder o) 27 = o.priceBits ∧
    readU64BE (encodeSubmitOrder o) 35 = o.timestamp_ms ∧
    decodeLoginResponse (u32BE tl ++ (ty :: s :: (u32BE body.length ++ body)))
      = some (decide (s ≠ 0), body) := by
  refine ⟨(show _ = beVal (u32BE (LOGIN_REQUEST_HEADER_SIZE + token.length)) from
      rfl).trans (beVal_u32BE _ hL),
    (show _ = beVal (u32BE token.length) from rfl).trans (beVal_u32BE _ hTk),
    rfl,
    (show _ = beVal (u32BE (4 + (submitOrderBody o).length)) from rfl).trans
      (beVal_u32BE _ hT),
    (show _ = beVal (u32BE o.order_id.length) from rfl).trans (beVal_u32BE _ h4),
    (show _ = beVal (u32BE o.user_id.length) from rfl).trans (beVal_u32BE _ h5),
    (show _ = beVal (u32BE o.symbol.length) from rfl).trans (beVal_u32BE _ h6),
    (show _ = beVal (u64BE o.quantity) from rfl).trans (beVal_u64BE _ hq),
    (show _ = beVal (u64BE o.priceBits) from rfl).trans (beVal_u64BE _ hp),
    (show _ = beVal (u64BE o.timestamp_ms) from rfl).trans (beVal_u64BE _ hts),
    ?_⟩
  have e : decodeLoginResponse (u32BE tl ++ (ty :: s :: (u32BE body.length ++ body)))
      = (if beVal (u32BE body.length) = 0 then some (decide (s ≠ 0), [])
         else if body.take (beVal (u32BE body.length)) = [] then none
         else some (decide (s ≠ 0), body.take (beVal (u32BE body.length)))) := rfl
  rw [e, beVal_u32BE _ hbl, List.take_length]
  have hne : ¬ body.length = 0 := fun h => hb (List.length_eq_zero.mp h)
  rw [if_neg hne, if_neg hb]

/-- Witness for C8 at concrete values: token "abc", the scenario order,
an inconsistent declared total (999), type 2, success 3 and the 2-byte
body [79, 75]. -/
theorem multibyte_fields_bigEndian_witness :
    (LOGIN_REQUEST_HEADER_SIZE + abcToken.length < 2 ^ 32 ∧
     abcToken.length < 2 ^ 32 ∧
     4 + (submitOrderBody sampleOrder).length < 2 ^ 32 ∧
     sampleOrder.order_id.length < 2 ^ 32 ∧
     sampleOrder.user_id.length < 2 ^ 32 ∧
     sampleOrder.symbol.length < 2 ^ 32 ∧
     sampleOrder.quantity < 2 ^ 64 ∧ sampleOrder.priceBits < 2 ^ 64 ∧
     sampleOrder.timestamp_ms < 2 ^ 64 ∧
     ([79, 75] : List Nat) ≠ [] ∧ ([79, 75] : List Nat).length < 2 ^ 32) ∧
    (readU32BE (encodeLoginRequest abcToken) 0
        = LOGIN_REQUEST_HEADER_SIZE + abcToken.length ∧
     readU32BE (encodeLoginRequest abcToken) 5 = abcToken.length ∧
     (encodeLoginRequest abcToken).drop 9 = abcToken ∧
     readU32BE (encodeSubmitOrder sampleOrder) 0
        = 4 + (submitOrderBody sampleOrder).length ∧
     readU32BE (encodeSubmitOrder sampleOrder) 5
        = sampleOrder.order_id.length ∧
     readU32BE (encodeSubmitOrder sampleOrder) 9
        = sampleOrder.user_id.length ∧
     readU32BE (encodeSubmitOrder sampleOrder) 13
        = sampleOrder.symbol.length ∧
     readU64BE (encodeSubmitOrder sampleOrder) 19 = sampleOrder.quantity ∧
     readU64BE (encodeSubmitOrder sampleOrder) 27 = sampleOrder.priceBits ∧
     readU64BE (encodeSubmitOrder sampleOrder) 35 = sampleOrder.timestamp_ms ∧
     decodeLoginResponse
        (u32BE 999 ++ (2 :: 3 :: (u32BE ([79, 75] : List Nat).length ++ [79, 75])))
        = some (decide ((3 : Nat) ≠ 0), [79, 75])) :=
  ⟨⟨by decide, by decide, by decide, by decide, by decide, by decide, by decide,
    by decide, by decide, by decide, by decide⟩,
   multibyte_fields_bigEndian abcToken sampleOrder 999 2 3 [79, 75]
     (by decide) (by decide) (by decide) (by decide) (by decide) (by decide)
     (by decide) (by decide) (by decide) (by decide) (by decide)⟩

/-- Claim C9: whenever the LoginResponse decoder reports an outcome,
the reported login success is `true` if and only if the 1-byte success
flag (the byte at offset 5) is nonzero — every nonzero flag value is a
successful login, only a zero flag is failure. -/
theorem loginResponse_success_iff_nonzero (data : List Nat)
    (r : Bool × List Nat)
    (h : decodeLoginResponse data = some r) :
    (r.fst = true ↔ readU8 data 5 ≠ 0) := by
  unfold decodeLoginResponse at h
  split at h
  case _ t0 t1 t2 t3 ty s m0 m1 m2 m3 rest =>
    have hs : readU8 (t0 :: t1 :: t2 :: t3 :: ty :: s :: m0 :: m1 :: m2 :: m3 :: rest) 5
        = s := rfl
    split at h
    · injection h with h'
      subst h'
      simp [hs]
    · split at h
      · exact absurd h (by simp)
      · injection h with h'
        subst h'
        simp [hs]
  case _ => exact absurd h (by simp)

/-- Witness for C9 at a response frame whose success flag is 7 — a
nonzero value other than 1 — which decodes as a successful login. -/
theorem loginResponse_success_iff_nonzero_witness :
    decodeLoginResponse [0, 0, 0, 10, 2, 7, 0, 0, 0, 0] = some (true, []) ∧
    (((true, ([] : List Nat)).fst = true
        ↔ readU8 [0, 0, 0, 10, 2, 7, 0, 0, 0, 0] 5 ≠ 0)) :=
  ⟨by decide,
   loginResponse_success_iff_nonzero [0, 0, 0, 10, 2, 7, 0, 0, 0, 0]
     (true, []) (by decide)⟩

/-- Claim C10: the LoginResponse decoder's outcome depends only on the
success byte, the `message_len` field and the body bytes: two response
headers that differ only in their `total_length` and/or `message_type`
fields decode to exactly the same result, so no
`UnknownMessageType`-style rejection can occur on an unexpected
discriminant. -/
theorem loginResponse_ignores_totalLength_and_type
    (t0 t1 t2 t3 ty u0 u1 u2 u3 ty' s m0 m1 m2 m3 : Nat)
    (rest : List Nat) :
    decodeLoginResponse
        (t0 :: t1 :: t2 :: t3 :: ty :: s :: m0 :: m1 :: m2 :: m3 :: rest) =
    decodeLoginResponse
        (u0 :: u1 :: u2 :: u3 :: ty' :: s :: m0 :: m1 :: m2 :: m3 :: rest) := rfl

end StockProto
